import Mathlib

/-!
Shallow embedding of the Electro Power front-end script
(src/assets/js/main.js): the debounce and throttle wrappers of the
utility layer, the ProductTabs catalog renderer, the FormHandler
consultation-form path, and the composer ElectroPowerApp.
Machine time is modelled in whole milliseconds (Nat); the single-threaded
event loop is modelled by processing timer firings and call-site
activations in time order.
-/

/-- A product record of the fixed table in ProductTabs.getProductData. -/
structure Product where
  name : String
  price : String
  image : String
  features : List String
deriving DecidableEq

/-- A rendered product card as synthesized by ProductTabs.createProductCard:
the image, the product name, the fixed best-seller badge, the feature chips
in declared order, the price and the two inert action buttons. -/
structure Card where
  image : String
  name : String
  badge : String
  features : List String
  price : String
  actions : List String
deriving DecidableEq

/-- The scooters entry of the product table. -/
def scootersList : List Product :=
  [ { name := "Kugoo C1", price := "450 BYN",
      image := "../assets/images/products/kugoo-c1.jpg",
      features := ["25 км/ч", "25 км запас хода", "7.5 Ач батарея"] },
    { name := "Kugoo M2", price := "650 BYN",
      image := "../assets/images/products/kugoo-m2.jpg",
      features := ["35 км/ч", "35 км запас хода", "10.4 Ач батарея"] },
    { name := "Kugoo M4 Pro", price := "850 BYN",
      image := "../assets/images/products/kugoo-m4-pro.jpg",
      features := ["45 км/ч", "50 км запас хода", "18 Ач батарея"] } ]

/-- The bikes entry of the product table. -/
def bikesList : List Product :=
  [ { name := "GT V6", price := "1200 BYN",
      image := "../assets/images/products/gt-v6.jpg",
      features := ["25 км/ч", "60 км запас хода", "13 Ач батарея"] },
    { name := "CAMRY 3.5", price := "1500 BYN",
      image := "../assets/images/products/camry-35.jpg",
      features := ["25 км/ч", "70 км запас хода", "16 Ач батарея"] },
    { name := "Kugoo Kirin C2", price := "1800 BYN",
      image := "../assets/images/products/kugoo-kirin-c2.jpg",
      features := ["25 км/ч", "80 км запас хода", "20 Ач батарея"] } ]

/-- The mopeds entry of the product table. -/
def mopedsList : List Product :=
  [ { name := "CityCoco GT X-11", price := "2500 BYN",
      image := "../assets/images/products/citycoco-gt-x11.jpg",
      features := ["45 км/ч", "60 км запас хода", "20 Ач батарея"] },
    { name := "GT EV3", price := "3200 BYN",
      image := "../assets/images/products/gt-ev3.jpg",
      features := ["60 км/ч", "80 км запас хода", "32 Ач батарея"] },
    { name := "IKINGI X7 PRO", price := "4500 BYN",
      image := "../assets/images/products/ikingi-x7-pro.jpg",
      features := ["80 км/ч", "120 км запас хода", "60 Ач батарея"] } ]

/-- ProductTabs.getProductData: the object literal productData is embedded as
a finite map over its three keys, and the lookup productData followed by the
or-else on productData.scooters returns the scooters list for every key
outside the table. A tab button without a data-tab attribute yields a null
key, modelled as none, which is likewise outside the table. -/
def getProductData (type : Option String) : List Product :=
  match type with
  | some "scooters" => scootersList
  | some "bikes" => bikesList
  | some "mopeds" => mopedsList
  | _ => scootersList

/-- ProductTabs.createProductCard: builds the card markup for one product. -/
def createProductCard (product : Product) : Card :=
  { image := product.image
    name := product.name
    badge := "Хит продаж"
    features := product.features
    price := product.price
    actions := ["Купить", "Подробнее"] }

/-- ProductTabs.loadTabContent: when the models grid is absent the method
returns without effect (none stays none); otherwise it clears the grid
(innerHTML is emptied) and appends one card per product of the selected
list, in list order. -/
def loadTabContent (tabType : Option String) (modelsGrid : Option (List Card)) :
    Option (List Card) :=
  match modelsGrid with
  | none => none
  | some _ =>
      some ((getProductData tabType).foldl (fun g p => g ++ [createProductCard p]) [])

/-- A tab control: its data-tab attribute (none when absent) and whether it
carries the active class. -/
structure TabButton where
  dataTab : Option String
  active : Bool
deriving DecidableEq

/-- The DOM state the ProductTabs widget touches: the tab controls and the
models grid render target (none when the grid element is missing). -/
structure TabsState where
  tabButtons : List TabButton
  modelsGrid : Option (List Card)
deriving DecidableEq

/-- classList.add of the active marking on the i-th tab control; out of
range, nothing is marked. -/
def markActiveAt : Nat → List TabButton → List TabButton
  | _, [] => []
  | 0, b :: bs => { b with active := true } :: bs
  | n + 1, b :: bs => b :: markActiveAt n bs

/-- ProductTabs.switchTab applied to the i-th tab control: read its data-tab
attribute, remove the active class from every tab button, add it to the
clicked one, then load the content for the selected tab. -/
def switchTab (s : TabsState) (i : Nat) : TabsState :=
  let targetTab : Option String :=
    match s.tabButtons[i]? with
    | some b => b.dataTab
    | none => none
  let cleared := s.tabButtons.map fun b => { b with active := false }
  { tabButtons := markActiveAt i cleared
    modelsGrid := loadTabContent targetTab s.modelsGrid }

/-- ElectroPowerApp.switchTab: querySelector for an element carrying the
given data-tab value. The markup contract of the page places data-tab
attributes only on the tab controls, so the query is modelled as a search
over the tab buttons; when none matches, the method returns with no effect. -/
def appSwitchTab (tabName : String) (s : TabsState) : TabsState :=
  match s.tabButtons.findIdx? (fun b => b.dataTab == some tabName) with
  | some i => switchTab s i
  | none => s

/-- The number of tab controls carrying the active class. -/
def activeCount (s : TabsState) : Nat :=
  (s.tabButtons.filter (fun b => b.active)).length

/-- The known category keys of the product table. -/
def knownCategoryKeys : List String := ["scooters", "bikes", "mopeds"]

/-- Runtime state of one throttled wrapper from utils.throttle: lastRan is
the time func last ran (none before the first call), pending is the single
scheduled trailing timer as (fire time, arguments), execs logs every
execution of func as (time, arguments) in chronological order. Arguments
are modelled as the index of the call-site activation that supplied them. -/
structure ThrottleState where
  lastRan : Option Nat
  pending : Option (Nat × Nat)
  execs : List (Nat × Nat)
deriving DecidableEq

/-- The timer callback scheduled by utils.throttle: when it fires, if at
least limit ms elapsed since lastRan it runs func with the stored arguments
and updates lastRan; either way the timer is spent. -/
def firePendingThrottle (limit : Nat) (s : ThrottleState) : ThrottleState :=
  match s.pending, s.lastRan with
  | some (ft, a), some lr =>
      if limit ≤ ft - lr then
        { lastRan := some ft, pending := none, execs := s.execs ++ [(ft, a)] }
      else
        { s with pending := none }
  | some _, none => { s with pending := none }
  | none, _ => s

/-- One call-site activation of the throttled wrapper at time t with
arguments a. A pending timer due at or before t has already fired on the
event loop, so it is processed first. The first-ever call runs func at once
and records lastRan; every later call clears the pending timer and
schedules a trailing call limit - (t - lastRan) ms out (truncated Nat
subtraction models the browser clamping a negative delay to zero). -/
def throttleCall (limit : Nat) (s : ThrottleState) (t a : Nat) : ThrottleState :=
  let s :=
    match s.pending with
    | some (ft, _) => if ft ≤ t then firePendingThrottle limit s else s
    | none => s
  match s.lastRan with
  | none => { s with lastRan := some t, execs := s.execs ++ [(t, a)] }
  | some lr => { s with pending := some (t + (limit - (t - lr)), a) }

/-- Run the throttled wrapper over a time-ordered list of call-site
activations, then let any remaining trailing timer fire; the result is the
list of (time, arguments) executions of func. -/
def throttleSim (limit : Nat) (calls : List (Nat × Nat)) : List (Nat × Nat) :=
  (firePendingThrottle limit
    (calls.foldl (fun s c => throttleCall limit s c.1 c.2) ⟨none, none, []⟩)).execs

/-- Runtime state of one debounced wrapper from utils.debounce: pending is
the single scheduled timer as (fire time, arguments of the activation that
scheduled it), execs logs the executions of func. The timeout variable of
the source is null exactly when pending is none. -/
structure DebounceState where
  pending : Option (Nat × Nat)
  execs : List (Nat × Nat)
deriving DecidableEq

/-- The later callback of utils.debounce: nulls the timeout and, unless
immediate mode is on, runs func with the arguments captured when the timer
was scheduled. -/
def fireDebounce (immediate : Bool) (s : DebounceState) : DebounceState :=
  match s.pending with
  | some (ft, a) =>
      { pending := none
        execs := if immediate then s.execs else s.execs ++ [(ft, a)] }
  | none => s

/-- One activation of the debounced wrapper at time t with arguments a. A
timer due at or before t has already fired, so it is processed first.
callNow holds when immediate mode is on and the timeout is null; the
activation then clears and reschedules the timer wait ms out and, when
callNow holds, runs func at once. -/
def debounceCall (wait : Nat) (immediate : Bool) (s : DebounceState) (t a : Nat) :
    DebounceState :=
  let s :=
    match s.pending with
    | some (ft, _) => if ft ≤ t then fireDebounce immediate s else s
    | none => s
  let callNow := immediate && s.pending.isNone
  { pending := some (t + wait, a)
    execs := if callNow then s.execs ++ [(t, a)] else s.execs }

/-- Run the debounced wrapper over a time-ordered list of activations, then
let a remaining timer fire; the result is the list of executions of func. -/
def debounceSim (wait : Nat) (immediate : Bool) (calls : List (Nat × Nat)) :
    List (Nat × Nat) :=
  (fireDebounce immediate
    (calls.foldl (fun s c => debounceCall wait immediate s c.1 c.2) ⟨none, []⟩)).execs

/-- The widgets constructed by ElectroPowerApp.initializeComponents. -/
inductive Widget where
  | autoScroll
  | mobileNav
  | productTabs
  | formHandler
  | performanceOptimizer
  | analytics
deriving DecidableEq

/-- The fixed construction order inside the try block of
ElectroPowerApp.initializeComponents. -/
def initOrder : List Widget :=
  [.autoScroll, .mobileNav, .productTabs, .formHandler,
   .performanceOptimizer, .analytics]

/-- Construct the widgets in order inside the single try block: the first
constructor that throws aborts the block and control reaches the catch,
which logs the error. Returns the list of widgets actually constructed and
whether the catch logged an error. -/
def runInit (throws : Widget → Bool) : List Widget → List Widget × Bool
  | [] => ([], false)
  | w :: ws =>
      if throws w then ([], true)
      else
        let r := runInit throws ws
        (w :: r.1, r.2)

/-- ElectroPowerApp.initializeComponents, parameterized by which widget
constructors throw during startup. -/
def initializeComponents (throws : Widget → Bool) : List Widget × Bool :=
  runInit throws initOrder

/-- Observable steps of the consultation form handler, listed in the order
they occur; everything before a simulatedDelay step happens synchronously
in the submit handler invocation, everything after it happens once the
simulated latency elapses. -/
inductive FormEvent where
  | notify (message : String) (severity : String)
  | setSubmitText (text : String)
  | setSubmitDisabled (disabled : Bool)
  | simulatedDelay (ms : Nat)
  | resetForm
deriving DecidableEq

/-- FormHandler.submitConsultationRequest: show the loading state on the
submit button, await the simulated 1000 ms API call, then show the success
notification, reset the form and restore the button text and enabled state.
originalText is the submit button text captured before the loading state;
the catch branch is unreachable because the simulated promise always
resolves. -/
def submitConsultationRequest (originalText : String) : List FormEvent :=
  [ .setSubmitText "Отправляем...",
    .setSubmitDisabled true,
    .simulatedDelay 1000,
    .notify "Заявка отправлена! Мы свяжемся с вами в течение 10 минут." "success",
    .resetForm,
    .setSubmitText originalText,
    .setSubmitDisabled false ]

/-- FormHandler.handleConsultationSubmit after preventDefault: when the name
or the phone field is empty (falsy), show the error notification and
return; otherwise run the simulated submission. -/
def handleConsultationSubmit (name phone originalText : String) : List FormEvent :=
  if name = "" ∨ phone = "" then
    [ .notify "Пожалуйста, заполните все поля" "error" ]
  else
    submitConsultationRequest originalText

/-- The C1 activation trace: calls at t = 0, 10, 50 and 140 ms; the k-th
call carries argument k. -/
def c1Calls : List (Nat × Nat) := [(0, 0), (10, 1), (50, 2), (140, 3)]

/-- C1 counterexample: for the throttle wrapper with limit 100 ms and
activations at t = 0, 10, 50 and 140 ms, func runs three times, at t = 0,
at t = 100 (trailing timer, arguments of the t = 50 call) and at t = 200
(trailing timer scheduled by the t = 140 call), so the total number of
executions is not at most 2 as the claim states. -/
theorem c1_throttle_counterexample :
    throttleSim 100 c1Calls = [(0, 0), (100, 2), (200, 3)] ∧
    ¬ (throttleSim 100 c1Calls).length ≤ 2 := by
  constructor
  · rfl
  · decide

/-- C1 amended: the throttle wrapper with limit 100 ms, activated at
t = 0, 10, 50 and 140 ms, executes func at t = 0 with the first call
arguments, at t = 100 with the arguments of the t = 50 call (the latest
attempted call at that moment), and at t = 200 with the arguments of the
t = 140 call; the total number of executions over the trace is exactly 3. -/
theorem c1_throttle_trace :
    throttleSim 100 c1Calls = [(0, 0), (100, 2), (200, 3)] ∧
    (throttleSim 100 c1Calls).length = 3 :=
  ⟨rfl, rfl⟩

/-- C7: the debounce wrapper with wait 100 ms and immediate false, activated
at t = 0, 10 and 50 ms with no further activations, executes func exactly
once, at t = 50 + 100 = 150 ms (100 ms after the last activation), with the
arguments of the last activation (index 2). -/
theorem c7_debounce_trace :
    debounceSim 100 false [(0, 0), (10, 1), (50, 2)] = [(50 + 100, 2)] := rfl

/-- The scenario in which exactly the autoScroll constructor throws. -/
def throwsOnlyAutoScroll : Widget → Bool := fun w => w == Widget.autoScroll

/-- C2 counterexample: with exactly one throwing constructor (autoScroll),
the exception is caught and logged at the composer, yet mobileNav, a widget
other than the throwing one, is not constructed: the single try block wraps
the whole construction sequence, so every widget after the throwing one is
skipped. -/
theorem c2_init_counterexample :
    (initOrder.filter throwsOnlyAutoScroll).length = 1 ∧
    throwsOnlyAutoScroll Widget.mobileNav = false ∧
    (initializeComponents throwsOnlyAutoScroll).2 = true ∧
    Widget.mobileNav ∉ (initializeComponents throwsOnlyAutoScroll).1 := by
  decide

/-- Helper for the partial-initialization characterization: running the
constructor sequence inside the single try block constructs exactly the
longest throw-free prefix and reaches the catch exactly when some
constructor throws. -/
theorem runInit_characterization (throws : Widget → Bool) :
    ∀ ws : List Widget,
      runInit throws ws = (ws.takeWhile (fun w => !throws w), ws.any throws) := by
  intro ws
  induction ws with
  | nil => rfl
  | cons w ws ih =>
      cases h : throws w with
      | true => simp [runInit, h, List.takeWhile_cons, List.any_cons]
      | false => simp [runInit, h, List.takeWhile_cons, List.any_cons, ih]

/-- C2 amended: a constructor throw during startup is caught and logged at
the top-level composer; the widgets that precede the first throwing
constructor in the fixed order autoScroll, mobileNav, productTabs,
formHandler, performanceOptimizer, analytics are constructed, and the
throwing widget together with every later widget is not. -/
theorem c2_init_partial_failure (throws : Widget → Bool) :
    initializeComponents throws =
      (initOrder.takeWhile (fun w => !throws w), initOrder.any throws) :=
  runInit_characterization throws initOrder

/-- Helper: appending one card per product to an accumulator, as the forEach
over appendChild does, produces the accumulator followed by the mapped
cards in list order. -/
theorem foldl_appendCard (f : Product → Card) :
    ∀ (ps : List Product) (acc : List Card),
      ps.foldl (fun g p => g ++ [f p]) acc = acc ++ ps.map f := by
  intro ps
  induction ps with
  | nil => intro acc; simp
  | cons p ps ih => intro acc; simp [List.foldl_cons, ih]

/-- Helper: rendering into a present grid yields exactly the mapped card
list of the selected products. -/
theorem loadTabContent_some (tabType : Option String) (g : List Card) :
    loadTabContent tabType (some g) =
      some ((getProductData tabType).map createProductCard) := by
  unfold loadTabContent
  rw [foldl_appendCard]
  simp

/-- C3: for every known category key, loading the tab into a present render
target leaves exactly one card per product of that category, in table
order, so the card count equals the table entry length. -/
theorem c3_known_category_render (k : String) (g : List Card)
    (_hk : k ∈ knownCategoryKeys) :
    loadTabContent (some k) (some g) =
      some ((getProductData (some k)).map createProductCard) ∧
    ((getProductData (some k)).map createProductCard).length =
      (getProductData (some k)).length := by
  refine ⟨loadTabContent_some (some k) g, ?_⟩
  simp

/-- C3 witness at the bikes key and an arbitrary prior grid content. -/
theorem c3_known_category_render_witness :
    "bikes" ∈ knownCategoryKeys ∧
    (loadTabContent (some "bikes") (some []) =
      some ((getProductData (some "bikes")).map createProductCard) ∧
    ((getProductData (some "bikes")).map createProductCard).length =
      (getProductData (some "bikes")).length) :=
  ⟨by decide, c3_known_category_render "bikes" [] (by decide)⟩

/-- Helper: every key outside the three table keys, the null key included,
selects the default scooters list. -/
theorem getProductData_unknown (k : Option String)
    (hk : k ∉ knownCategoryKeys.map (fun s => some s)) :
    getProductData k = scootersList := by
  unfold getProductData
  split
  · exact absurd (by simp [knownCategoryKeys, *]) hk
  · exact absurd (by simp [knownCategoryKeys, *]) hk
  · exact absurd (by simp [knownCategoryKeys, *]) hk
  · rfl

/-- C4: for every key outside the known set (the missing attribute, modelled
as none, included) the renderer signals no error and renders exactly the
default scooters cards: the result coincides with rendering the default
category. -/
theorem c4_unknown_key_fallback (k : Option String) (g : List Card)
    (hk : k ∉ knownCategoryKeys.map (fun s => some s)) :
    loadTabContent k (some g) = some (scootersList.map createProductCard) ∧
    loadTabContent k (some g) = loadTabContent (some "scooters") (some g) := by
  have h1 := loadTabContent_some k g
  rw [getProductData_unknown k hk] at h1
  refine ⟨h1, ?_⟩
  rw [h1, loadTabContent_some]
  rfl

/-- C4 witness at the null key (a button without a data-tab attribute). -/
theorem c4_unknown_key_fallback_witness :
    (none ∉ knownCategoryKeys.map (fun s => some s)) ∧
    (loadTabContent none (some []) = some (scootersList.map createProductCard) ∧
    loadTabContent none (some []) = loadTabContent (some "scooters") (some [])) :=
  ⟨by decide, c4_unknown_key_fallback none [] (by decide)⟩

/-- C5: rendering is an idempotent replace: for every key and every prior
render-target state, loading the same tab twice in a row leaves the render
target in the same final state, card count included, as loading it once;
the second load fully replaces the content of the first instead of
appending to it. -/
theorem c5_load_idempotent (k : Option String) (g : Option (List Card)) :
    loadTabContent k (loadTabContent k g) = loadTabContent k g := by
  cases g <;> rfl

/-- Helper: after classList.remove of the active class on every tab button,
no button is active. -/
theorem filter_active_clear (bs : List TabButton) :
    (bs.map (fun b => { b with active := false })).filter (fun b => b.active) = [] := by
  induction bs with
  | nil => rfl
  | cons b bs ih => simp [List.map_cons, List.filter_cons, ih]

/-- Helper: classList.add of the active class on one button raises the
number of active buttons by at most one. -/
theorem filter_active_markActiveAt (i : Nat) (bs : List TabButton) :
    ((markActiveAt i bs).filter (fun b => b.active)).length ≤
      (bs.filter (fun b => b.active)).length + 1 := by
  induction bs generalizing i with
  | nil => simp [markActiveAt]
  | cons b bs ih =>
      cases i with
      | zero =>
          simp only [markActiveAt, List.filter_cons]
          cases hb : b.active <;> simp
      | succ n =>
          simp only [markActiveAt, List.filter_cons]
          cases hb : b.active <;> simp <;>
            exact Nat.le_trans (ih n) (by omega)

/-- Helper: a single tab click leaves at most one tab control active: the
click clears the active class everywhere and then marks only the clicked
control. -/
theorem activeCount_switchTab (s : TabsState) (i : Nat) :
    activeCount (switchTab s i) ≤ 1 := by
  unfold activeCount switchTab
  simp only []
  calc ((markActiveAt i (s.tabButtons.map fun b => { b with active := false })).filter
          (fun b => b.active)).length
      ≤ ((s.tabButtons.map fun b => { b with active := false }).filter
          (fun b => b.active)).length + 1 := filter_active_markActiveAt _ _
    _ = 1 := by rw [filter_active_clear]; rfl

/-- C6: starting from a state with at most one active tab control, after any
finite sequence of tab clicks at most one tab control carries the active
marking: every click removes the marking from all controls and then marks
exactly the clicked one. -/
theorem c6_active_tab_invariant (s : TabsState) (clicks : List Nat)
    (h : activeCount s ≤ 1) :
    activeCount (clicks.foldl switchTab s) ≤ 1 := by
  induction clicks generalizing s with
  | nil => exact h
  | cons c cs ih => exact ih (switchTab s c) (activeCount_switchTab s c)

/-- A concrete three-button tabs state used to instantiate the invariant. -/
def tabsStateExample : TabsState :=
  { tabButtons :=
      [ { dataTab := some "scooters", active := true },
        { dataTab := some "bikes", active := false },
        { dataTab := some "mopeds", active := false } ],
    modelsGrid := some [] }

/-- C6 witness: the invariant instantiated at a concrete three-button state
with one active control and the click sequence 1, 0, 2. -/
theorem c6_active_tab_invariant_witness :
    activeCount tabsStateExample ≤ 1 ∧
    activeCount ([1, 0, 2].foldl switchTab tabsStateExample) ≤ 1 :=
  ⟨by decide, c6_active_tab_invariant tabsStateExample [1, 0, 2] (by decide)⟩

/-- C8: submitting with an empty name or an empty phone produces exactly one
step, a synchronously shown error-severity notification: the trace holds no
simulatedDelay step (the latency path is never entered), no submit-button
change and no form reset, all of which equality to the one-element trace
makes explicit. -/
theorem c8_empty_field_rejected (name phone originalText : String)
    (h : name = "" ∨ phone = "") :
    handleConsultationSubmit name phone originalText =
      [FormEvent.notify "Пожалуйста, заполните все поля" "error"] := by
  unfold handleConsultationSubmit
  rw [if_pos h]

/-- C8 witness: empty name, non-empty phone. -/
theorem c8_empty_field_rejected_witness :
    ("" = "" ∨ "123" = "") ∧
    handleConsultationSubmit "" "123" "Отправить" =
      [FormEvent.notify "Пожалуйста, заполните все поля" "error"] :=
  ⟨Or.inl rfl, c8_empty_field_rejected "" "123" "Отправить" (Or.inl rfl)⟩

/-- C9: submitting with both fields non-empty enters the simulated
submission: the loading state is shown, the fixed 1000 ms latency is
simulated, then the success-severity notification is produced, then the
form fields are cleared, and finally the submit-control text and enabled
state are restored. -/
theorem c9_success_flow (name phone originalText : String)
    (hn : name ≠ "") (hp : phone ≠ "") :
    handleConsultationSubmit name phone originalText =
      [ FormEvent.setSubmitText "Отправляем...",
        FormEvent.setSubmitDisabled true,
        FormEvent.simulatedDelay 1000,
        FormEvent.notify "Заявка отправлена! Мы свяжемся с вами в течение 10 минут." "success",
        FormEvent.resetForm,
        FormEvent.setSubmitText originalText,
        FormEvent.setSubmitDisabled false ] := by
  unfold handleConsultationSubmit
  rw [if_neg (by exact fun hc => hc.elim hn hp)]
  rfl

/-- C9 witness: name A and phone 123. -/
theorem c9_success_flow_witness :
    ("A" ≠ "") ∧ ("123" ≠ "") ∧
    handleConsultationSubmit "A" "123" "Отправить" =
      [ FormEvent.setSubmitText "Отправляем...",
        FormEvent.setSubmitDisabled true,
        FormEvent.simulatedDelay 1000,
        FormEvent.notify "Заявка отправлена! Мы свяжемся с вами в течение 10 минут." "success",
        FormEvent.resetForm,
        FormEvent.setSubmitText "Отправить",
        FormEvent.setSubmitDisabled false ] :=
  ⟨by decide, by decide, c9_success_flow "A" "123" "Отправить" (by decide) (by decide)⟩

/-- Helper: when no tab button carries the sought data-tab value, the index
search of the query comes up empty. -/
theorem findIdx_dataTab_none (tabName : String) (bs : List TabButton)
    (h : ∀ b ∈ bs, b.dataTab ≠ some tabName) :
    bs.findIdx? (fun b => b.dataTab == some tabName) = none := by
  rw [List.findIdx?_eq_none_iff]
  intro x hx
  simp only [beq_eq_false_iff_ne, ne_eq]
  exact h x hx

/-- C10: a name matching no tab control data-tab attribute makes the public
switchTab API a no-op: the query finds no element, so the tabs state — the
render target and every active marking included — is left unchanged and no
rendering happens, in contrast to an unknown key reaching the renderer. -/
theorem c10_app_switchTab_noop (tabName : String) (s : TabsState)
    (h : ∀ b ∈ s.tabButtons, b.dataTab ≠ some tabName) :
    appSwitchTab tabName s = s := by
  unfold appSwitchTab
  rw [findIdx_dataTab_none tabName s.tabButtons h]

/-- C10 witness: the three-button state and a name none of them carries. -/
theorem c10_app_switchTab_noop_witness :
    (∀ b ∈ tabsStateExample.tabButtons, b.dataTab ≠ some "gyroboards") ∧
    appSwitchTab "gyroboards" tabsStateExample = tabsStateExample :=
  ⟨by decide, c10_app_switchTab_noop "gyroboards" tabsStateExample (by decide)⟩
